import Mathlib

/-!
Shallow embedding of the facility-reservation backend (src/app.py, src/db.py,
src/users_dao.py) together with theorems settling the spec's claims.

Modelling conventions:
- Absolute timestamps are `Nat` (seconds); `datetime.datetime.now()` becomes an
  explicit `now : Nat` argument, `datetime.timedelta(days=1)` is `day = 86400`.
- The SQLAlchemy store is a record of lists; `query.filter_by(...).first()` is
  `List.find?`, `query.filter_by(...)` without `.first()` is `List.filter`
  (a Query object, which is never `None`), `db.session.add` appends, and
  mutating a fetched row and committing replaces that row in the list.
- `bcrypt` is modelled by its contract: `hashpw password salt` is an opaque
  digest from which `checkpw` recovers exactly whether the password matches.
- `hashlib.sha1(os.urandom(64))` token generation is nondeterministic, so the
  generated (session token, update token) pair is passed in as a `Gen`
  argument; likewise autoincremented ids are passed as explicit `newId`s.
- Python values that flow into untyped `==` comparisons are embedded as
  `PyVal` with Python's cross-type equality semantics (`pyEq`).
- A Python exception (e.g. `AttributeError`) is `Except.error` of a `PyErr`.
-/

/-- A bcrypt digest, modelled by the bcrypt contract: `hashpw` produces a value
from which `checkpw` can decide exactly whether a candidate password matches. -/
structure Digest where
  password : String
  salt : Nat
deriving DecidableEq

/-- `bcrypt.hashpw(password.encode("utf8"), bcrypt.gensalt(rounds=13))`. -/
def hashpw (password : String) (salt : Nat) : Digest := ⟨password, salt⟩

/-- `bcrypt.checkpw(password.encode("utf8"), digest)`. -/
def checkpw (password : String) (d : Digest) : Bool := password == d.password

/-- A row of the `users` table (db.py, class `Users`). -/
structure User where
  id : Nat
  name : String
  netid : String
  email : String
  password_digest : Digest
  session_token : String
  session_expiration : Nat
  update_token : String
deriving DecidableEq

/-- A row of the `reservations` table (db.py, class `Reservation`). -/
structure Reservation where
  id : Nat
  user_id : Nat
  facility_id : Nat
  start_time : Nat
  end_time : Nat
deriving DecidableEq

/-- A row of the `facilities` table (db.py, class `Facility`). -/
structure Facility where
  id : Nat
  name : String
  location_id : Nat
deriving DecidableEq

/-- A row of the `location` table (db.py, class `Location`). -/
structure Location where
  id : Nat
  code : String
  name : String
  address : String
  weekday_operating_start : String
  weekday_operating_end : String
  weekend_operating_start : String
  weekend_operating_end : String
deriving DecidableEq

/-- The whole relational store. -/
structure Store where
  users : List User
  locations : List Location
  facilities : List Facility
  reservations : List Reservation
deriving DecidableEq

/-- A freshly generated (session token, update token) pair, standing for the
two `_urlsafe_base_64()` draws made by `Users.renew_session`. -/
structure Gen where
  sessionTok : String
  updateTok : String
deriving DecidableEq

/-- `datetime.timedelta(days=1)` in seconds. -/
def day : Nat := 86400

/-- A Python exception escaping a route. -/
inductive PyErr where
  | attributeError : PyErr
deriving DecidableEq

/-- A route response: `success_response(data, code)` (its JSON payload is not
inspected by any claim and is elided) or `failure_response(message, code)`. -/
inductive Resp where
  | ok : Nat → Resp
  | err : String → Nat → Resp
deriving DecidableEq

/-- `success_response(data, code)` (app.py line 26). -/
def success_response (code : Nat) : Resp := Resp.ok code

/-- `failure_response(message, code)` (app.py line 33). -/
def failure_response (message : String) (code : Nat) : Resp := Resp.err message code

/-- Python runtime values, for the places where the source compares values of
different runtime types with `==`. -/
inductive PyVal where
  | vstr : String → PyVal
  | vbool : Bool → PyVal
  | vint : Nat → PyVal
  | vpair : PyVal → PyVal → PyVal
deriving DecidableEq

/-- Python `==` on the embedded values: structural within one type, `True == 1`
style bool/int interop, and `False` across any other type mismatch (in
particular a `str` never equals a `tuple`). -/
def pyEq : PyVal → PyVal → Bool
  | .vstr a, .vstr b => a == b
  | .vbool a, .vbool b => a == b
  | .vint a, .vint b => a == b
  | .vbool a, .vint b => (if a then 1 else 0) == b
  | .vint a, .vbool b => a == (if b then 1 else 0)
  | .vpair a b, .vpair c d => pyEq a c && pyEq b d
  | _, _ => false

/-- First component of a Python pair (identity elsewhere; never used off a pair). -/
def pyFst : PyVal → PyVal
  | .vpair a _ => a
  | v => v

/-- Second component of a Python pair (identity elsewhere; never used off a pair). -/
def pySnd : PyVal → PyVal
  | .vpair _ b => b
  | v => v

/-- Python truthiness of the embedded values (`if not success`). -/
def pyTruthy : PyVal → Bool
  | .vstr s => s ≠ ""
  | .vbool b => b
  | .vint n => n ≠ 0
  | .vpair _ _ => true

/-- Read a Python string value (used after a branch has established it is one). -/
def pyStr : PyVal → String
  | .vstr s => s
  | _ => ""

/-- `json.dumps({"error": message})` (app.py line 37). -/
def json_error (message : String) : String :=
  "\x7b\"error\": \"" ++ message ++ "\"\x7d"

/-- `failure_response(message, code)` as the Python value it evaluates to:
the pair of the JSON error payload and the status code. -/
def failPy (message : String) (code : Nat) : PyVal :=
  .vpair (.vstr (json_error message)) (.vint code)

/-- `auth_header.replace("Bearer ", "")` on the character list: removes every
(leftmost-first, non-overlapping) occurrence of the 7-character pattern. -/
def removeBearerAux : List Char → List Char
  | [] => []
  | 'B' :: 'e' :: 'a' :: 'r' :: 'e' :: 'r' :: ' ' :: rest => removeBearerAux rest
  | c :: cs => c :: removeBearerAux cs

/-- `s.replace("Bearer ", "")` (app.py line 49). -/
def removeBearerS (s : String) : String := ⟨removeBearerAux s.toList⟩

/-- Python `str.strip()`: drop leading and trailing whitespace. -/
def pyStripChars (l : List Char) : List Char :=
  ((l.dropWhile Char.isWhitespace).reverse.dropWhile Char.isWhitespace).reverse

/-- `s.strip()` (app.py line 49). -/
def pyStripS (s : String) : String := ⟨pyStripChars s.toList⟩

/-- `extract_token(request)` (app.py lines 40-54). Returns the Python pair the
function returns: `(False, failure_response(...))` or `(True, bearer_token)`.
The `bearer_token is None` disjunct of line 51 can never hold and the
emptiness test `not bearer_token` remains. -/
def extract_token (authHeader : Option String) : PyVal :=
  match authHeader with
  | none => .vpair (.vbool false) (failPy "Missing authorization header." 400)
  | some auth_header =>
    let bearer_token := pyStripS (removeBearerS auth_header)
    if bearer_token = "" then
      .vpair (.vbool false) (failPy "Invalid authorization header." 400)
    else
      .vpair (.vbool true) (.vstr bearer_token)

/-- `Users.renew_session` (db.py lines 107-116): install a fresh session token,
an expiration one day from now, and a fresh update token. -/
def Users.renew_session (u : User) (g : Gen) (now : Nat) : User :=
  { u with
    session_token := g.sessionTok
    session_expiration := now + day
    update_token := g.updateTok }

/-- `Users.__init__` (db.py lines 67-76): set the identity fields, hash the
password, and call `renew_session`; `id` is assigned by the store on commit. -/
def Users.init (name netid email password : String) (g : Gen) (salt now id : Nat) : User :=
  Users.renew_session
    { id := id, name := name, netid := netid, email := email
      password_digest := hashpw password salt
      session_token := "", session_expiration := 0, update_token := "" } g now

/-- `Users.verify_password` (db.py lines 118-122). -/
def Users.verify_password (u : User) (password : String) : Bool :=
  checkpw password u.password_digest

/-- `Users.verify_session_token` (db.py lines 124-128):
`session_token == self.session_token and datetime.datetime.now() < self.session_expiration`. -/
def Users.verify_session_token (u : User) (session_token : String) (now : Nat) : Bool :=
  (session_token == u.session_token) && decide (now < u.session_expiration)

/-- `Users.verify_update_token` (db.py lines 130-134). -/
def Users.verify_update_token (u : User) (update_token : String) : Bool :=
  update_token == u.update_token

/-- `users_dao.get_user_by_email` (users_dao.py lines 10-14). -/
def get_user_by_email (s : Store) (email : String) : Option User :=
  s.users.find? fun u => u.email == email

/-- `users_dao.get_user_by_session_token` (users_dao.py lines 17-21). -/
def get_user_by_session_token (s : Store) (session_token : String) : Option User :=
  s.users.find? fun u => u.session_token == session_token

/-- `users_dao.get_user_by_update_token` (users_dao.py lines 24-28). -/
def get_user_by_update_token (s : Store) (update_token : String) : Option User :=
  s.users.find? fun u => u.update_token == update_token

/-- `users_dao.verify_credentials` (users_dao.py lines 31-40). -/
def verify_credentials (s : Store) (email password : String) : Bool × Option User :=
  match get_user_by_email s email with
  | none => (false, none)
  | some optional_user => (Users.verify_password optional_user password, some optional_user)

/-- `users_dao.create_user` (users_dao.py lines 43-59): refuse a duplicate
email, otherwise build the user and `db.session.add` it. -/
def create_user (s : Store) (name netid email password : String) (g : Gen)
    (salt now newId : Nat) : Bool × Option User × Store :=
  match get_user_by_email s email with
  | some optional_user => (false, some optional_user, s)
  | none =>
    let user := Users.init name netid email password g salt now newId
    (true, some user, { s with users := s.users ++ [user] })

/-- Replace the first occurrence of `old` in the list by `new` — the effect of
mutating the row returned by `.first()` and committing. -/
def replaceFirst : List User → User → User → List User
  | [], _, _ => []
  | v :: vs, old, new => if v = old then new :: vs else v :: replaceFirst vs old new

/-- `users_dao.renew_session` (users_dao.py lines 62-74): look the user up by
update token; on a hit run `Users.renew_session` on that row and commit. -/
def renew_session (s : Store) (update_token : String) (g : Gen) (now : Nat) :
    Bool × Option User × Store :=
  match get_user_by_update_token s update_token with
  | none => (false, none, s)
  | some optional_user =>
    let u' := Users.renew_session optional_user g now
    (true, some u', { s with users := replaceFirst s.users optional_user u' })

/-- The three field assignments of the `logout` route (app.py lines 178-180). -/
def logout_user_update (user : User) (now : Nat) : User :=
  { user with session_token := "", session_expiration := now, update_token := "" }

/-- The `logout` route (app.py lines 164-183): extract the bearer token, look
the user up by session token, verify it, then clear both tokens, set the
expiration to now, and commit. The source's single
`if user is None or not user.verify_session_token(...)` guard appears as the
two branches returning the same failure. -/
def logout (s : Store) (authHeader : Option String) (now : Nat) : Store × Resp :=
  let etok := extract_token authHeader
  if pyTruthy (pyFst etok) = false then
    (s, failure_response "Could not extract session token" 400)
  else
    let session_token := pyStr (pySnd etok)
    match get_user_by_session_token s session_token with
    | none => (s, failure_response "Invalid session token" 400)
    | some user =>
      if Users.verify_session_token user session_token now = false then
        (s, failure_response "Invalid session token" 400)
      else
        ({ s with users := replaceFirst s.users user (logout_user_update user now) },
         success_response 200)

/-- A parsed `create_location` request body: `body.get(field)` per field. -/
structure LocationBody where
  code : Option String
  name : Option String
  address : Option String
  weekday_operating_start : Option String
  weekday_operating_end : Option String
  weekend_operating_start : Option String
  weekend_operating_end : Option String
deriving DecidableEq

/-- The `create_location` route (app.py lines 199-243), body reads verbatim:
`address` reads `body.get("name")` (line 211), and `weekday_operating_end`,
`weekend_operating_start`, `weekend_operating_end` all read
`body.get("weekday_operating_start")` (lines 218, 221, 225); the guards on
lines 222 and 226 re-check the already-present weekday variables, so they can
never fire once line 214's guard passed and are matched on the same field
here. The `Location(...)` call (lines 229-230) passes the local
`weekday_operating_end` as the `weekend_operating_end` keyword. -/
def create_location (s : Store) (body : LocationBody) (newId : Nat) : Store × Resp :=
  match body.code with
  | none => (s, failure_response "No code" 400)
  | some code =>
  match body.name with
  | none => (s, failure_response "No name" 400)
  | some name =>
  match body.name with
  | none => (s, failure_response "No address" 400)
  | some address =>
  match body.weekday_operating_start with
  | none => (s, failure_response "No weekday operating time start" 400)
  | some weekday_operating_start =>
  match body.weekday_operating_start with
  | none => (s, failure_response "No weekday operating time end" 400)
  | some weekday_operating_end =>
  match body.weekday_operating_start with
  | none => (s, failure_response "No weekend operating time start" 400)
  | some weekend_operating_start =>
  match body.weekday_operating_start with
  | none => (s, failure_response "No weekend operating time end" 400)
  | some _weekend_operating_end =>
    let location : Location :=
      { id := newId, code := code, name := name, address := address
        weekday_operating_start := weekday_operating_start
        weekday_operating_end := weekday_operating_end
        weekend_operating_start := weekend_operating_start
        weekend_operating_end := weekday_operating_end }
    ({ s with locations := s.locations ++ [location] }, success_response 201)

/-- A parsed `add_reservation` request body: `body.get(field)` per field. -/
structure ReservationBody where
  netid : Option String
  start_time : Option String
  end_time : Option String
deriving DecidableEq

/-- The conflict scan of `add_reservation` (app.py lines 374-378): for each
reservation of the facility, in order, fail if the new start time lies
strictly inside it, then fail if the new end time lies strictly inside it. -/
def scan_reservations (start_time end_time : Nat) : List Reservation → Option Resp
  | [] => none
  | reservation :: rest =>
    if reservation.start_time < start_time && reservation.end_time > start_time then
      some (failure_response "Start time is during another reservation." 404)
    else if reservation.start_time < end_time && reservation.end_time > end_time then
      some (failure_response "End time is during another reservation." 404)
    else scan_reservations start_time end_time rest

/-- The `add_reservation` route (app.py lines 340-386) as written: the facility
query lacks `.first()`, so `facility` is a Query object and the
`if facility is None` guard (line 349) can never fire; then line 359 evaluates
`datetime.strptime`, and the imported module `datetime` has no attribute
`strptime`, so every request raises `AttributeError` at this point. -/
def add_reservation (s : Store) (location_id facility_id : Nat) (body : ReservationBody)
    (authHeader : Option String) : Except PyErr (Store × Resp) :=
  let facility := s.facilities.filter fun f => f.id == facility_id && f.location_id == location_id
  let netid := body.netid
  let start_time := body.start_time
  let end_time := body.end_time
  .error PyErr.attributeError

/-- The continuation of `add_reservation` from line 362 onward, as the code
would run were the two `strptime` calls performed (the parsed timestamps are
supplied directly): look the user up by the body's netid, compare
`user.session_token == extract_token(request)` — a `str` against the returned
pair — and on the (unreachable, always-false) match run the conflict scan and
then evaluate `facility.id` on the un-`.first()`ed Query (line 380), which
raises `AttributeError`. -/
def add_reservation_cont (s : Store) (location_id facility_id : Nat) (netid : Option String)
    (start_time end_time : Nat) (authHeader : Option String) : Except PyErr (Store × Resp) :=
  let facility := s.facilities.filter fun f => f.id == facility_id && f.location_id == location_id
  match s.users.find? fun u => some u.netid == netid with
  | none => .ok (s, failure_response "Invalid netid." 404)
  | some user =>
    if pyEq (.vstr user.session_token) (extract_token authHeader) then
      match scan_reservations start_time end_time
          (s.reservations.filter fun r => r.facility_id == facility_id) with
      | some resp => .ok (s, resp)
      | none => .error PyErr.attributeError
    else
      .ok (s, failure_response "Authentication error." 404)

/-- The `cancel_reservation` route (app.py lines 389-403) as written: line 395
evaluates `reserve.user_id` before the `if reserve is None` guard of line 396,
so a missing reservation raises `AttributeError`; when the reservation exists,
`user.session_token == extract_token(request)` compares a `str` against the
returned pair, and on the (always-false) match the reservation would be
deleted and committed. -/
def cancel_reservation (s : Store) (reservation_id : Nat) (authHeader : Option String) :
    Except PyErr (Store × Resp) :=
  match s.reservations.find? fun r => r.id == reservation_id with
  | none => .error PyErr.attributeError
  | some reserve =>
    match s.users.find? fun u => u.id == reserve.user_id with
    | none => .error PyErr.attributeError
    | some user =>
      if pyEq (.vstr user.session_token) (extract_token authHeader) then
        .ok ({ s with reservations := s.reservations.erase reserve }, success_response 200)
      else
        .ok (s, failure_response "Authentication error." 404)

/-- The store after a route outcome: the new store on a normal return, the
original store when the route raised (nothing was committed before any raise). -/
def resultStore (s : Store) : Except PyErr (Store × Resp) → Store
  | .ok (s', _) => s'
  | .error _ => s

/-- Whether a route outcome went through `success_response`. -/
def resultIsSuccess : Except PyErr (Store × Resp) → Bool
  | .ok (_, Resp.ok _) => true
  | _ => false

/-- From the spec glossary: two half-open intervals overlap iff they share an
open interior point. -/
def specOverlap (s1 e1 s2 e2 : Nat) : Bool := decide (max s1 s2 < min e1 e2)

/-! ### Sample data used by closed witnesses and counterexamples -/

/-- The empty store (the state right after `db.create_all()`). -/
def emptyStore : Store := ⟨[], [], [], []⟩

/-- A sample user holding session token `"tok123"` (expires at 100) and update
token `"ut1"`. -/
def u1 : User := ⟨1, "n1", "nid1", "e1", hashpw "pw1" 7, "tok123", 100, "ut1"⟩

/-- A sample facility at location 1. -/
def fac1 : Facility := ⟨1, "court", 1⟩

/-- A store with one user and one facility and no reservations. -/
def st1 : Store := ⟨[u1], [], [fac1], []⟩

/-- A sample reservation `[2, 3)` by user 1 on facility 1. -/
def res1 : Reservation := ⟨1, 1, 1, 2, 3⟩

/-- `st1` plus the reservation `res1`. -/
def st2 : Store := ⟨[u1], [], [fac1], [res1]⟩

/-! ### Helper lemmas -/

/-- Searching an appended list when the first part has no hit. -/
theorem find?_append_of_none {α : Type} (p : α → Bool) (l1 l2 : List α)
    (h : l1.find? p = none) : (l1 ++ l2).find? p = l2.find? p := by
  induction l1 with
  | nil => simp
  | cons x xs ih =>
    by_cases hp : p x
    · rw [List.find?_cons_of_pos _ hp] at h
      exact absurd h (by simp)
    · rw [List.find?_cons_of_neg _ (by simp [hp])] at h
      rw [List.cons_append, List.find?_cons_of_neg _ (by simp [hp])]
      exact ih h

/-- With pairwise-distinct update tokens, searching for a stored user's update
token finds exactly that user. -/
theorem find?_update_token_eq (l : List User) (u : User) (t : String)
    (huniq : l.Pairwise fun a b => a.update_token ≠ b.update_token)
    (hmem : u ∈ l) (ht : u.update_token = t) :
    (l.find? fun v => v.update_token == t) = some u := by
  induction l with
  | nil => cases hmem
  | cons x xs ih =>
    rcases List.pairwise_cons.mp huniq with ⟨hx, hxs⟩
    rcases List.mem_cons.mp hmem with h | h
    · subst h
      exact List.find?_cons_of_pos _ (by simp [ht])
    · have hne : x.update_token ≠ t := by
        have hxu := hx u h
        rw [ht] at hxu
        exact hxu
      rw [List.find?_cons_of_neg _ (by simp [hne])]
      exact ih hxs h

/-- After replacing the holder of update token `t` by a user carrying a
different update token, no user holds `t` any more. -/
theorem find?_update_token_replaceFirst (l : List User) (u u' : User) (t : String)
    (huniq : l.Pairwise fun a b => a.update_token ≠ b.update_token)
    (hmem : u ∈ l) (ht : u.update_token = t) (hfresh : u'.update_token ≠ t) :
    ((replaceFirst l u u').find? fun v => v.update_token == t) = none := by
  induction l with
  | nil => cases hmem
  | cons x xs ih =>
    rcases List.pairwise_cons.mp huniq with ⟨hx, hxs⟩
    by_cases hxu : x = u
    · subst hxu
      rw [replaceFirst, if_pos rfl]
      rw [List.find?_cons_of_neg _ (by simp [hfresh])]
      apply List.find?_eq_none.mpr
      intro b hb
      have hbx := hx b hb
      rw [ht] at hbx
      simp [Ne.symm hbx]
    · have hu : u ∈ xs := by
        rcases List.mem_cons.mp hmem with h | h
        · exact absurd h.symm hxu
        · exact h
      have hxt : x.update_token ≠ t := by
        have hxu2 := hx u hu
        rw [ht] at hxu2
        exact hxu2
      rw [replaceFirst, if_neg hxu]
      rw [List.find?_cons_of_neg _ (by simp [hxt])]
      exact ih hxs hu

/-- `extract_token` always returns a Python pair, so Python `==` between any
string and its result is `False`. -/
theorem pyEq_vstr_extract_token (tok : String) (h : Option String) :
    pyEq (.vstr tok) (extract_token h) = false := by
  cases h with
  | none => rfl
  | some a =>
    rw [extract_token]
    split <;> rfl

/-! ### Claim theorems -/

/-- C4: `Users.verify_session_token u t now` returns true iff `t` equals the
user's current session token and the current time is strictly before the
session expiration; in particular, once `session_expiration ≤ now` it returns
false even when `t` is the exact stored token string. -/
theorem c4_verify_session_token_iff (u : User) (t : String) (now : Nat) :
    Users.verify_session_token u t now = true ↔
      t = u.session_token ∧ now < u.session_expiration := by
  simp [Users.verify_session_token]

/-- C8 counterexample: the non-empty header `"sometoken"` does not start with
`"Bearer "`, yet `extract_token` accepts it and returns it as the token,
instead of rejecting it as malformed. -/
theorem c8_counterexample :
    ("Bearer ".toList.isPrefixOf "sometoken".toList) = false
    ∧ extract_token (some "sometoken") = .vpair (.vbool true) (.vstr "sometoken") :=
  ⟨rfl, rfl⟩

/-- C8 (amended): `extract_token` fails when the header is absent; otherwise it
removes every occurrence of the substring `"Bearer "` and strips surrounding
whitespace, fails when the remainder is empty, and succeeds returning the
remainder — so a non-empty header lacking the `"Bearer "` prefix is accepted
as the token itself, not rejected. -/
theorem c8_extract_token_amended :
    extract_token none = .vpair (.vbool false) (failPy "Missing authorization header." 400)
    ∧ (∀ s, pyStripS (removeBearerS s) = "" →
        extract_token (some s) = .vpair (.vbool false) (failPy "Invalid authorization header." 400))
    ∧ (∀ s, pyStripS (removeBearerS s) ≠ "" →
        extract_token (some s) = .vpair (.vbool true) (.vstr (pyStripS (removeBearerS s)))) := by
  refine ⟨rfl, ?_, ?_⟩
  · intro s hs
    simp [extract_token, hs]
  · intro s hs
    simp [extract_token, hs]

/-- Witness for C8 (amended) at the header `"Bearer abc"`. -/
theorem c8_extract_token_amended_witness :
    pyStripS (removeBearerS "Bearer abc") ≠ ""
    ∧ extract_token (some "Bearer abc") = .vpair (.vbool true) (.vstr "abc") :=
  ⟨by decide, c8_extract_token_amended.2.2 "Bearer abc" (by decide)⟩

/-- C9: the `add_reservation` and `cancel_reservation` authorization checks
compare the user's `session_token` string against the `(success, value)` pair
returned by `extract_token`; such a comparison is always `False`, so neither
endpoint ever reaches its success branch, no reservation is ever created or
deleted through them, and the store is left unchanged (for `add_reservation`
both as written — it raises before the comparison — and for its post-parse
continuation, where the comparison is what blocks). -/
theorem c9_auth_compare_never_succeeds (tok : String) (authHeader : Option String)
    (s : Store) (location_id facility_id reservation_id : Nat) (body : ReservationBody)
    (netid : Option String) (start_time end_time : Nat) :
    pyEq (.vstr tok) (extract_token authHeader) = false
    ∧ resultStore s (add_reservation s location_id facility_id body authHeader) = s
    ∧ resultIsSuccess (add_reservation s location_id facility_id body authHeader) = false
    ∧ resultStore s (add_reservation_cont s location_id facility_id netid start_time end_time authHeader) = s
    ∧ resultIsSuccess (add_reservation_cont s location_id facility_id netid start_time end_time authHeader) = false
    ∧ resultStore s (cancel_reservation s reservation_id authHeader) = s
    ∧ resultIsSuccess (cancel_reservation s reservation_id authHeader) = false := by
  refine ⟨pyEq_vstr_extract_token tok authHeader, rfl, rfl, ?_, ?_, ?_, ?_⟩
  · cases hf : s.users.find? fun u => some u.netid == netid <;>
      simp [add_reservation_cont, hf, pyEq_vstr_extract_token, resultStore, failure_response]
  · cases hf : s.users.find? fun u => some u.netid == netid <;>
      simp [add_reservation_cont, hf, pyEq_vstr_extract_token, resultIsSuccess, failure_response]
  · cases hr : s.reservations.find? fun r => r.id == reservation_id with
    | none => simp [cancel_reservation, hr, resultStore]
    | some reserve =>
      cases hu : s.users.find? fun u => u.id == reserve.user_id with
      | none => simp [cancel_reservation, hr, hu, resultStore]
      | some user =>
        simp [cancel_reservation, hr, hu, pyEq_vstr_extract_token, resultStore, failure_response]
  · cases hr : s.reservations.find? fun r => r.id == reservation_id with
    | none => simp [cancel_reservation, hr, resultIsSuccess]
    | some reserve =>
      cases hu : s.users.find? fun u => u.id == reserve.user_id with
      | none => simp [cancel_reservation, hr, hu, resultIsSuccess]
      | some user =>
        simp [cancel_reservation, hr, hu, pyEq_vstr_extract_token, resultIsSuccess, failure_response]

/-- C10: for every `create_location` request body containing the checked
fields, the persisted `Location`'s `address` equals the body's `"name"` value
and all four operating-time fields equal the body's
`"weekday_operating_start"` value; and the body's `address`,
`weekday_operating_end`, `weekend_operating_start` and `weekend_operating_end`
fields never influence the result. -/
theorem c10_create_location_fields (s : Store) (body body2 : LocationBody) (newId : Nat)
    (c n w : String) (hc : body.code = some c) (hn : body.name = some n)
    (hw : body.weekday_operating_start = some w) :
    create_location s body newId =
      ({ s with locations := s.locations ++ [⟨newId, c, n, n, w, w, w, w⟩] },
       success_response 201)
    ∧ (body2.code = body.code → body2.name = body.name →
        body2.weekday_operating_start = body.weekday_operating_start →
        create_location s body2 newId = create_location s body newId) := by
  constructor
  · simp [create_location, hc, hn, hw]
  · intro h1 h2 h3
    simp [create_location, hc, hn, hw, h1, h2, h3]

/-- A sample `create_location` body: address and the three unread operating
fields carry values distinct from `name` and `weekday_operating_start`. -/
def locBody0 : LocationBody :=
  ⟨some "C", some "N", some "A", some "W", some "X", some "Y", some "Z"⟩

/-- `locBody0` with different `address`, `weekday_operating_end`,
`weekend_operating_start`, `weekend_operating_end` values. -/
def locBody1 : LocationBody :=
  ⟨some "C", some "N", some "A2", some "W", none, none, none⟩

/-- Witness for C10: the persisted location's address is the body's name value,
all four operating fields are the `weekday_operating_start` value, and a body
differing only in the four unread fields produces the identical result. -/
theorem c10_create_location_fields_witness :
    create_location emptyStore locBody0 1 =
      ({ emptyStore with locations := emptyStore.locations ++ [⟨1, "C", "N", "N", "W", "W", "W", "W"⟩] },
       success_response 201)
    ∧ create_location emptyStore locBody1 1 = create_location emptyStore locBody0 1 :=
  ⟨(c10_create_location_fields emptyStore locBody0 locBody1 1 "C" "N" "W" rfl rfl rfl).1,
   (c10_create_location_fields emptyStore locBody0 locBody1 1 "C" "N" "W" rfl rfl rfl).2 rfl rfl rfl⟩

/-- C3: for a stored user holding update token `t` (update tokens are unique
across users, as the schema's uniqueness constraint enforces, and the freshly
generated update token differs from `t`), `renew_session t` succeeds and
replaces all three of the user's `session_token`, `session_expiration`
(now + 24h) and `update_token`; after that success a second `renew_session`
call with the same old token `t` fails. -/
theorem c3_renew_session_single_use (s : Store) (u : User) (t : String) (g g2 : Gen)
    (now now2 : Nat)
    (huniq : s.users.Pairwise fun a b => a.update_token ≠ b.update_token)
    (hmem : u ∈ s.users) (ht : u.update_token = t) (hfresh : g.updateTok ≠ t) :
    renew_session s t g now
      = (true, some (Users.renew_session u g now),
         { s with users := replaceFirst s.users u (Users.renew_session u g now) })
    ∧ renew_session
        { s with users := replaceFirst s.users u (Users.renew_session u g now) } t g2 now2
      = (false, none,
         { s with users := replaceFirst s.users u (Users.renew_session u g now) }) := by
  have h1 : get_user_by_update_token s t = some u :=
    find?_update_token_eq s.users u t huniq hmem ht
  have h2 : ((replaceFirst s.users u (Users.renew_session u g now)).find?
      fun v => v.update_token == t) = none :=
    find?_update_token_replaceFirst s.users u (Users.renew_session u g now) t
      huniq hmem ht hfresh
  constructor
  · simp [renew_session, h1]
  · simp [renew_session, get_user_by_update_token, h2]

/-- Witness for C3: renewing `u1`'s session with its update token `"ut1"`
succeeds and replaces the three session fields, and a second renewal with
`"ut1"` fails. -/
theorem c3_renew_session_single_use_witness :
    renew_session st1 "ut1" ⟨"tok456", "ut2"⟩ 50
      = (true, some (Users.renew_session u1 ⟨"tok456", "ut2"⟩ 50),
         { st1 with users := replaceFirst st1.users u1 (Users.renew_session u1 ⟨"tok456", "ut2"⟩ 50) })
    ∧ renew_session
        { st1 with users := replaceFirst st1.users u1 (Users.renew_session u1 ⟨"tok456", "ut2"⟩ 50) }
        "ut1" ⟨"a", "b"⟩ 60
      = (false, none,
         { st1 with users := replaceFirst st1.users u1 (Users.renew_session u1 ⟨"tok456", "ut2"⟩ 50) }) :=
  c3_renew_session_single_use st1 u1 "ut1" ⟨"tok456", "ut2"⟩ ⟨"a", "b"⟩ 50 60
    (by simp [st1]) (by simp [st1]) rfl (by decide)

/-- C6: when no user with the given email exists, `create_user` succeeds and a
subsequent `verify_credentials` with that email and password succeeds and
returns the very same user (with the assigned id); when a user with the email
already exists, `create_user` fails and returns the store unchanged, leaving
the existing user untouched. -/
theorem c6_register_then_login (s : Store) (name netid email password : String)
    (g : Gen) (salt now newId : Nat) :
    (get_user_by_email s email = none →
      create_user s name netid email password g salt now newId
        = (true, some (Users.init name netid email password g salt now newId),
           { s with users := s.users ++ [Users.init name netid email password g salt now newId] })
      ∧ verify_credentials
          { s with users := s.users ++ [Users.init name netid email password g salt now newId] }
          email password
        = (true, some (Users.init name netid email password g salt now newId))
      ∧ (Users.init name netid email password g salt now newId).id = newId)
    ∧ ∀ v, get_user_by_email s email = some v →
        create_user s name netid email password g salt now newId = (false, some v, s) := by
  constructor
  · intro h
    refine ⟨by simp [create_user, h], ?_, rfl⟩
    have hfind : get_user_by_email
        { s with users := s.users ++ [Users.init name netid email password g salt now newId] }
        email = some (Users.init name netid email password g salt now newId) := by
      unfold get_user_by_email at h ⊢
      rw [find?_append_of_none _ _ _ h]
      simp [Users.init, Users.renew_session]
    have hpw : Users.verify_password
        (Users.init name netid email password g salt now newId) password = true := by
      simp [Users.verify_password, Users.init, Users.renew_session, checkpw, hashpw]
    simp [verify_credentials, hfind, hpw]
  · intro v hv
    simp [create_user, hv]

/-- Witness for C6: registering into the empty store then verifying the
credentials returns the created user, and registering `u1`'s email `"e1"`
again fails and leaves the store unchanged. -/
theorem c6_register_then_login_witness :
    (create_user emptyStore "n" "i" "e" "p" ⟨"s", "u"⟩ 1 2 3
      = (true, some (Users.init "n" "i" "e" "p" ⟨"s", "u"⟩ 1 2 3),
         { emptyStore with users := emptyStore.users ++ [Users.init "n" "i" "e" "p" ⟨"s", "u"⟩ 1 2 3] })
     ∧ verify_credentials
         { emptyStore with users := emptyStore.users ++ [Users.init "n" "i" "e" "p" ⟨"s", "u"⟩ 1 2 3] }
         "e" "p"
       = (true, some (Users.init "n" "i" "e" "p" ⟨"s", "u"⟩ 1 2 3))
     ∧ (Users.init "n" "i" "e" "p" ⟨"s", "u"⟩ 1 2 3).id = 3)
    ∧ create_user st1 "x" "y" "e1" "z" ⟨"s2", "u2"⟩ 4 5 6 = (false, some u1, st1) :=
  ⟨(c6_register_then_login emptyStore "n" "i" "e" "p" ⟨"s", "u"⟩ 1 2 3).1 rfl,
   (c6_register_then_login st1 "x" "y" "e1" "z" ⟨"s2", "u2"⟩ 4 5 6).2 u1 rfl⟩

/-- C7: for a logged-in user (valid bearer header resolving to the user, token
verifying at logout time), `logout` clears `session_token` and `update_token`
to `""`, sets `session_expiration` to the current time, and commits; every
subsequent `verify_session_token` call on the logged-out user — with any
token, in particular the pre-logout session token — returns false. -/
theorem c7_logout_invalidates (s : Store) (authHeader : Option String) (t : String)
    (u : User) (now : Nat)
    (hex : extract_token authHeader = .vpair (.vbool true) (.vstr t))
    (hfind : get_user_by_session_token s t = some u)
    (hver : Users.verify_session_token u t now = true) :
    logout s authHeader now
      = ({ s with users := replaceFirst s.users u (logout_user_update u now) },
         success_response 200)
    ∧ ∀ t2 now2, now ≤ now2 →
        Users.verify_session_token (logout_user_update u now) t2 now2 = false := by
  constructor
  · simp [logout, hex, pyFst, pySnd, pyTruthy, pyStr, hfind, hver]
  · intro t2 now2 h
    have hnl : ¬ (now2 < now) := Nat.not_lt.mpr h
    simp [Users.verify_session_token, logout_user_update, hnl]

/-- Witness for C7: logging `u1` out at time 50 via its valid session token
`"tok123"`, then verifying the pre-logout token at time 60, returns false. -/
theorem c7_logout_invalidates_witness :
    logout st1 (some "Bearer tok123") 50
      = ({ st1 with users := replaceFirst st1.users u1 (logout_user_update u1 50) },
         success_response 200)
    ∧ Users.verify_session_token (logout_user_update u1 50) "tok123" 60 = false :=
  ⟨(c7_logout_invalidates st1 (some "Bearer tok123") "tok123" u1 50 rfl rfl rfl).1,
   (c7_logout_invalidates st1 (some "Bearer tok123") "tok123" u1 50 rfl rfl rfl).2
     "tok123" 60 (by decide)⟩

/-- C1 (code bug): with facility 1 at location 1 present, a registered user
`"nid1"` holding session token `"tok123"`, a well-formed body and a valid
bearer header, `add_reservation` raises `AttributeError` (the `datetime`
module has no `strptime`) instead of persisting a reservation; its post-parse
continuation still answers `"Authentication error."` (the `str == tuple`
comparison) without persisting anything; and the conflict scan contains no
`start >= end` rejection: an inverted interval passes it. -/
theorem c1_add_reservation_bug :
    add_reservation st1 1 1 ⟨some "nid1", some "01/01/24 10:00:00", some "01/01/24 11:00:00"⟩
        (some "Bearer tok123") = .error PyErr.attributeError
    ∧ add_reservation_cont st1 1 1 (some "nid1") 10 20 (some "Bearer tok123")
        = .ok (st1, failure_response "Authentication error." 404)
    ∧ scan_reservations 5 3 [] = none :=
  ⟨rfl, rfl, rfl⟩

/-- C2 (code bug): with an existing reservation `[2, 3)` on facility 1, the
conflict scan of `add_reservation` raises no conflict for the new interval
`[1, 4)` that strictly contains it, even though the two intervals overlap in
the spec's sense — so the scan does not preserve the no-overlap invariant;
the route itself never inserts anything at all (the authentication comparison
always fails), so the invariant holds in reachable states only vacuously. -/
theorem c2_containment_overlap_missed :
    scan_reservations 1 4 (st2.reservations.filter fun r => r.facility_id == 1) = none
    ∧ specOverlap 1 4 2 3 = true
    ∧ add_reservation_cont st2 1 1 (some "nid1") 1 4 (some "Bearer tok123")
        = .ok (st2, failure_response "Authentication error." 404) :=
  ⟨rfl, rfl, rfl⟩

/-- C5 (code bug): `cancel_reservation` with an id no reservation has raises
`AttributeError` (`reserve.user_id` is evaluated before the `None` check)
instead of returning NotFound; and for an existing reservation, even the
owner presenting their valid session token gets `"Authentication error."`
(the `str == tuple` comparison) and the reservation is never deleted. -/
theorem c5_cancel_reservation_bug :
    cancel_reservation st2 99 (some "Bearer tok123") = .error PyErr.attributeError
    ∧ cancel_reservation st2 1 (some "Bearer tok123")
        = .ok (st2, failure_response "Authentication error." 404) :=
  ⟨rfl, rfl⟩
